import Mathlib

/-!
Shallow embedding of `src/components/charts.py` (chart generation functions of
the flight-analytics dashboard) and proofs about its three generators:
`create_choropleth`, `create_animated_airline_chart`, `create_sunburst`.

Numeric cell values are modelled as `ℚ`.  A pandas `DataFrame` is modelled as
a `List` of typed row records with the column set the CSV loaders of
`src/app.py` produce.  Dynamic (string-keyed) column access `df[metric]` is
modelled as an `Option`-valued lookup: `none` corresponds to the `KeyError`
(or plotly-express `ValueError` for a missing `color` column) that Python
raises for a string that is not a column.  Generators that can raise are
embedded as `Except String _`; the error string names the Python exception.
-/

namespace AirportCharts

/-- A row of `state_metrics.csv` (entity `StateMetricsRow`). -/
structure StateRow where
  stateCode : String
  stateName : String
  avgDepDelay : ℚ
  cancellationRate : ℚ
  flightCount : ℚ
deriving DecidableEq

/-- A row of `daily_airline_metrics.csv` (entity `DailyAirlineMetricsRow`). -/
structure DailyRow where
  day : ℤ
  airline : String
  flightCount : ℚ
  avgDepDelay : ℚ
  onTimeRate : ℚ
  cancellationRate : ℚ
deriving DecidableEq

/-- A row of the hierarchy dataset (entity `HierarchyRow`). -/
structure HierRow where
  state : String
  city : String
  airport : String
  airline : String
  flightCount : ℚ
  avgDelay : ℚ
deriving DecidableEq

/-- One entry of the choropleth's `metric_config` dict
(charts.py lines 58-80): title, color scale, color-bar label `labels['z']`,
hover suffix and numeric format. -/
structure ChoroConfig where
  title : String
  colorScale : String
  zLabel : String
  hoverSuffix : String
  valueFormat : String
deriving DecidableEq

/-- charts.py lines 59-65: the `'AvgDepDelay'` entry of the choropleth
`metric_config`. -/
def avgDepDelayChoroConfig : ChoroConfig :=
  { title := "Average Departure Delay by State"
    colorScale := "Teal"
    zLabel := "Avg Delay (min)"
    hoverSuffix := " min"
    valueFormat := ".1f" }

/-- The choropleth `metric_config` dict (charts.py lines 58-80) as a partial
lookup; `none` for keys the dict does not hold. -/
def choroplethMetricConfig : String → Option ChoroConfig
  | "AvgDepDelay" => some avgDepDelayChoroConfig
  | "CancellationRate" => some
      { title := "Flight Cancellation Rate by State"
        colorScale := "Teal"
        zLabel := "Cancel Rate (%)"
        hoverSuffix := "%"
        valueFormat := ".2f" }
  | "FlightCount" => some
      { title := "Total Flight Volume by State"
        colorScale := "Teal"
        zLabel := "Total Flights"
        hoverSuffix := " flights"
        valueFormat := ",.0f" }
  | _ => none

/-- charts.py line 82: `config = metric_config.get(metric, metric_config['AvgDepDelay'])`. -/
def choroplethConfig (metric : String) : ChoroConfig :=
  (choroplethMetricConfig metric).getD avgDepDelayChoroConfig

/-- The column names of the state-metrics table.  `px.choropleth` raises
`ValueError` when its `color` argument is not one of these. -/
def stateColumns : List String :=
  ["StateCode", "StateName", "AvgDepDelay", "CancellationRate", "FlightCount"]

/-- `row[metric]` for the numeric columns of the state-metrics table;
`none` for a string-typed or absent column (where the f-string numeric
format of charts.py line 136 would raise). -/
def StateRow.getNum (r : StateRow) : String → Option ℚ
  | "AvgDepDelay" => some r.avgDepDelay
  | "CancellationRate" => some r.cancellationRate
  | "FlightCount" => some r.flightCount
  | _ => none

/-- The part of the plotly figure returned by `create_choropleth` that the
specification talks about: descriptor-driven title (line 102), color-bar
label (line 120), the color-bound column, color scale, and the text-overlay
labels of lines 132-143, kept as (state name, metric value) pairs together
with the numeric format and suffix they are rendered with. -/
structure ChoroplethSpec where
  title : String
  colorBarLabel : String
  colorColumn : String
  colorScale : String
  textLabels : List (String × ℚ)
  valueFormat : String
  hoverSuffix : String
  height : ℚ
deriving DecidableEq

/-- Python error: `px.choropleth` rejects a `color` argument that is not a
column of the data frame. -/
def choroColorColumnError : String :=
  "ValueError: value of color is not the name of a column in data_frame"

/-- Python error: formatting a non-numeric cell with a float format in the
label lambda of charts.py line 136. -/
def choroLabelFormatError : String :=
  "ValueError: unknown format code f for object of type str"

/-- Embedding of `create_choropleth` (charts.py lines 49-145).
Steps, in source order: descriptor lookup with permissive default (line 82);
`px.choropleth` with `color=metric` (lines 84-98), which raises when
`metric` is not a column; the per-row text-label overlay (lines 132-143),
whose f-string raises on a non-numeric column — pandas `apply` on an empty
frame swallows that error, so the label step only raises when rows exist. -/
def create_choropleth (rows : List StateRow) (metric : String) :
    Except String ChoroplethSpec :=
  let config := choroplethConfig metric
  if metric ∈ stateColumns then
    match rows.mapM (fun r => (r.getNum metric).map fun v => (r.stateName, v)) with
    | some labels =>
        .ok { title := config.title
              colorBarLabel := config.zLabel
              colorColumn := metric
              colorScale := config.colorScale
              textLabels := labels
              valueFormat := config.valueFormat
              hoverSuffix := config.hoverSuffix
              height := 500 }
    | none => .error choroLabelFormatError
  else .error choroColorColumnError

/-- One entry of the animated chart's `metric_config` dict
(charts.py lines 162-184). -/
structure AnimConfig where
  title : String
  subtitle : String
  xLabel : String
  format : String
  suffix : String
deriving DecidableEq

/-- charts.py lines 163-169: the `'FlightCount'` entry of the animated
chart's `metric_config`. -/
def flightCountAnimConfig : AnimConfig :=
  { title := "Daily Flight Volume by Airline"
    subtitle := "Number of flights operated each day"
    xLabel := "Daily Flights"
    format := ":,"
    suffix := " flights" }

/-- The animated chart's `metric_config` dict (charts.py lines 162-184) as a
partial lookup.  Note: the source dict has entries for `FlightCount`,
`AvgDepDelay` and `OnTimeRate` only — there is no `CancellationRate`
entry, although `src/app.py` offers `CancellationRate` in the metric
dropdown of this chart. -/
def animatedMetricConfig : String → Option AnimConfig
  | "FlightCount" => some flightCountAnimConfig
  | "AvgDepDelay" => some
      { title := "Average Departure Delay by Airline"
        subtitle := "Daily average delay in minutes"
        xLabel := "Avg Delay (min)"
        format := ":.1f"
        suffix := " min" }
  | "OnTimeRate" => some
      { title := "On-Time Performance by Airline"
        subtitle := "Percentage of flights arriving within 15 minutes"
        xLabel := "On-Time %"
        format := ":.1f"
        suffix := "%" }
  | _ => none

/-- charts.py line 186: `config = metric_config.get(metric, metric_config['FlightCount'])`. -/
def animatedConfig (metric : String) : AnimConfig :=
  (animatedMetricConfig metric).getD flightCountAnimConfig

/-- `df[c]` for the numeric columns of the daily-airline table; `none`
models the `KeyError` a non-column string raises. -/
def dailyColumn : String → Option (DailyRow → ℚ)
  | "Day" => some fun r => (r.day : ℚ)
  | "FlightCount" => some DailyRow.flightCount
  | "AvgDepDelay" => some DailyRow.avgDepDelay
  | "OnTimeRate" => some DailyRow.onTimeRate
  | "CancellationRate" => some DailyRow.cancellationRate
  | _ => none

/-- charts.py lines 189-191:
`df = daily_airline_df.copy()`;
`if selected_airlines and len(selected_airlines) > 0: df = df[df['Airline'].isin(selected_airlines)]`.
`None` and the empty list are both falsy, so neither filters. -/
def animFiltered (df : List DailyRow) (sel : Option (List String)) : List DailyRow :=
  match sel with
  | none => df
  | some airlines =>
      if airlines.length > 0 then df.filter (fun r => decide (r.airline ∈ airlines)) else df

/-- charts.py line 198: `ascending_metric = metric in ['FlightCount', 'OnTimeRate']`. -/
def ascendingMetric (metric : String) : Bool :=
  ["FlightCount", "OnTimeRate"].contains metric

/-- The sort order of charts.py line 199,
`df.sort_values(['Day', metric], ascending=[True, not ascending_metric])`:
lexicographic on `Day` ascending, then on the metric value — descending
within a day when `ascending_metric` holds, ascending otherwise. -/
def rowLE (f : DailyRow → ℚ) (asc : Bool) (a b : DailyRow) : Prop :=
  a.day < b.day ∨ (a.day = b.day ∧ metricDirLE f asc a b)
where
  /-- direction of the second sort key -/
  metricDirLE (f : DailyRow → ℚ) (asc : Bool) (a b : DailyRow) : Prop :=
    match asc with
    | true => f b ≤ f a
    | false => f a ≤ f b

instance (f : DailyRow → ℚ) (asc : Bool) (a b : DailyRow) :
    Decidable (rowLE.metricDirLE f asc a b) :=
  match asc with
  | true => inferInstanceAs (Decidable (f b ≤ f a))
  | false => inferInstanceAs (Decidable (f a ≤ f b))

instance (f : DailyRow → ℚ) (asc : Bool) : DecidableRel (rowLE f asc) :=
  fun a b =>
    inferInstanceAs (Decidable (a.day < b.day ∨ (a.day = b.day ∧ rowLE.metricDirLE f asc a b)))

/-- Multi-column `DataFrame.sort_values` is pandas' stable lexsort; a stable
sort is modelled by Mathlib's (stable) insertion sort on `rowLE`. -/
def sortValues (f : DailyRow → ℚ) (asc : Bool) (rows : List DailyRow) : List DailyRow :=
  rows.insertionSort (rowLE f asc)

/-- First-appearance-order distinct values of a list, with an accumulator of
values already seen.  This is how plotly express orders animation frames:
`unique()` of the `animation_frame` column in order of appearance in the
(already day-sorted) data frame. -/
def uniqAux (seen : List ℤ) : List ℤ → List ℤ
  | [] => []
  | d :: rest => if d ∈ seen then uniqAux seen rest else d :: uniqAux (d :: seen) rest

/-- The `Day` value of each animation frame, in frame order. -/
def frameDays (rows : List DailyRow) : List ℤ :=
  uniqAux [] (rows.map (·.day))

/-- The part of the figure returned by `create_animated_airline_chart` that
the specification talks about: the composed title of line 223, the x-axis
label and fixed range of lines 228-232, the sorted data binding, the frame
sequence, the y-axis `categoryorder` of line 236, and the animation timing
constants of lines 259-260. -/
structure AnimatedSpec where
  titleText : String
  xLabel : String
  xRange : ℚ × ℚ
  rows : List DailyRow
  frames : List ℤ
  yCategoryOrder : String
  format : String
  suffix : String
  height : ℚ
  frameDuration : ℚ
  transitionDuration : ℚ
deriving DecidableEq

/-- Python error of charts.py line 194: `df[metric]` with a non-column string. -/
def animKeyError : String := "KeyError: metric is not a column of daily_airline_df"

/-- Python error of charts.py line 259: plotly express only adds
`updatemenus` (play/pause) and `sliders` when the figure has more than one
animation frame, so `fig.layout.updatemenus[0]` raises on an empty tuple.
(The sliders access just below it is guarded by `if fig.layout.sliders:`;
the updatemenus access is not.) -/
def animIndexError : String := "IndexError: tuple index out of range"

/-- The figure construction of charts.py lines 193-256 for a resolved metric
column `f`: x-range from the post-filter maximum with 10% padding and a
fallback of 100 (lines 194-195, `NaN > 0` is falsy so an empty frame also
falls back), stable sort (line 199), one frame per distinct day in
first-appearance order (line 207), fixed y `categoryorder` (line 236). -/
def animBuild (metric : String) (f : DailyRow → ℚ) (filtered : List DailyRow) :
    AnimatedSpec :=
  let config := animatedConfig metric
  let maxValue : Option ℚ := (filtered.map f).max?
  let xRangeMax : ℚ :=
    match maxValue with
    | some m => if 0 < m then m * (11 / 10) else 100
    | none => 100
  let sorted := sortValues f (ascendingMetric metric) filtered
  { titleText := config.title ++ "<br><sub>" ++ config.subtitle ++ "</sub>"
    xLabel := config.xLabel
    xRange := (0, xRangeMax)
    rows := sorted
    frames := frameDays sorted
    yCategoryOrder := "total ascending"
    format := config.format
    suffix := config.suffix
    height := 500
    frameDuration := 400
    transitionDuration := 150 }

/-- Embedding of `create_animated_airline_chart` (charts.py lines 152-270).
Raises `KeyError` when `metric` is not a column (line 194), and
`IndexError` at line 259 when the filtered data yields at most one
animation frame (plotly express then adds no `updatemenus`). -/
def create_animated_airline_chart (df : List DailyRow) (metric : String)
    (sel : Option (List String)) : Except String AnimatedSpec :=
  match dailyColumn metric with
  | none => .error animKeyError
  | some f =>
      if (animBuild metric f (animFiltered df sel)).frames.length > 1 then
        .ok (animBuild metric f (animFiltered df sel))
      else .error animIndexError

/-- charts.py lines 287-288: `if selected_state: hierarchy_df =
hierarchy_df[hierarchy_df['State'] == selected_state]`.  Python truthiness:
`None` and the empty string are both falsy, so neither filters. -/
def sunburstFiltered (df : List HierRow) (sel : Option String) : List HierRow :=
  match sel with
  | none => df
  | some s => if s = "" then df else df.filter (fun r => decide (r.state = s))

/-- charts.py lines 291-298: the fixed 6-stop color scale. -/
def vibrantScale : List (ℚ × String) :=
  [(0, "#0891b2"), (1/5, "#0d9488"), (2/5, "#14b8a6"),
   (3/5, "#fbbf24"), (4/5, "#f97316"), (1, "#dc2626")]

/-- The part of the figure returned by `create_sunburst` that the
specification talks about: the filtered data binding, hierarchy path,
size/color columns, the fixed color scale and color domain
(`range_color=[0, 40]`, line 306), the mode-dependent subtitle
(lines 313-315), and the segment-border styling of lines 347-349. -/
structure SunburstSpec where
  rows : List HierRow
  path : List String
  valuesColumn : String
  colorColumn : String
  colorScale : List (ℚ × String)
  rangeColor : ℚ × ℚ
  subtitle : String
  colorBarLabel : String
  markerLineColor : String
  markerLineWidth : ℚ
  height : ℚ
deriving DecidableEq

/-- Embedding of `create_sunburst` (charts.py lines 277-353).  Over the
typed row model the construction is total: `px.sunburst` builds an empty
hierarchy from an empty frame without raising. -/
def create_sunburst (df : List HierRow) (sel : Option String) : SunburstSpec :=
  let rows := sunburstFiltered df sel
  { rows := rows
    path := ["State", "City", "Airport", "Airline"]
    valuesColumn := "FlightCount"
    colorColumn := "AvgDelay"
    colorScale := vibrantScale
    rangeColor := (0, 40)
    subtitle :=
      match sel with
      | none => "Click to drill down: State → City → Airport → Airline"
      | some s =>
          if s = "" then "Click to drill down: State → City → Airport → Airline"
          else "Filtered: " ++ s
    colorBarLabel := "Avg Delay<br>(minutes)"
    markerLineColor := "white"
    markerLineWidth := 5/2
    height := 700 }

/-!
Receiver-state variants for the frame-effect claim.  Python passes the row
tables by reference, so a generator could in principle mutate its caller's
table.  Each `_st` variant returns, next to the generator's result, the
caller's table as it stands after the call.  Every pandas operation
charts.py performs is non-mutating on its receiver: `DataFrame.copy`
returns a fresh frame (line 189), boolean-mask selection returns a new
frame (lines 191, 288), `sort_values` without `inplace=True` returns a new
frame (line 199), `apply` returns a new series (line 135), and column reads
(`df['StateCode']`, `df[metric]`) allocate nothing in the caller's frame.
-/

/-- `daily_airline_df.copy()` of charts.py line 189: a fresh equal frame,
receiver untouched — returns (new frame, receiver after the call). -/
def dfCopy (t : List DailyRow) : List DailyRow × List DailyRow := (t, t)

/-- `create_choropleth` together with the caller's table after the call;
the function only reads `state_metrics_df`. -/
def create_choropleth_st (rows : List StateRow) (metric : String) :
    Except String ChoroplethSpec × List StateRow :=
  (create_choropleth rows metric, rows)

/-- `create_animated_airline_chart` together with the caller's table after
the call; line 189 copies the input and every later operation acts on the
copy (and is itself non-mutating). -/
def create_animated_airline_chart_st (df : List DailyRow) (metric : String)
    (sel : Option (List String)) : Except String AnimatedSpec × List DailyRow :=
  let copied := dfCopy df
  (create_animated_airline_chart copied.1 metric sel, copied.2)

/-- `create_sunburst` together with the caller's table after the call; line
288 rebinds the local name to a freshly selected frame and never writes
through the reference. -/
def create_sunburst_st (df : List HierRow) (sel : Option String) :
    SunburstSpec × List HierRow :=
  (create_sunburst df sel, df)

/-!  ## Order properties of the sort key  -/

theorem rowLE_total (f : DailyRow → ℚ) (asc : Bool) (a b : DailyRow) :
    rowLE f asc a b ∨ rowLE f asc b a := by
  rcases lt_trichotomy a.day b.day with h | h | h
  · exact Or.inl (Or.inl h)
  · cases asc with
    | true =>
        rcases le_total (f b) (f a) with hf | hf
        · exact Or.inl (Or.inr ⟨h, hf⟩)
        · exact Or.inr (Or.inr ⟨h.symm, hf⟩)
    | false =>
        rcases le_total (f a) (f b) with hf | hf
        · exact Or.inl (Or.inr ⟨h, hf⟩)
        · exact Or.inr (Or.inr ⟨h.symm, hf⟩)
  · exact Or.inr (Or.inl h)

theorem rowLE_trans (f : DailyRow → ℚ) (asc : Bool) (a b c : DailyRow)
    (hab : rowLE f asc a b) (hbc : rowLE f asc b c) : rowLE f asc a c := by
  rcases hab with h1 | ⟨e1, d1⟩ <;> rcases hbc with h2 | ⟨e2, d2⟩
  · exact Or.inl (h1.trans h2)
  · exact Or.inl (e2 ▸ h1)
  · exact Or.inl (e1 ▸ h2)
  · refine Or.inr ⟨e1.trans e2, ?_⟩
    cases asc with
    | true => exact le_trans d2 d1
    | false => exact le_trans d1 d2

instance (f : DailyRow → ℚ) (asc : Bool) : IsTotal DailyRow (rowLE f asc) :=
  ⟨rowLE_total f asc⟩

instance (f : DailyRow → ℚ) (asc : Bool) : IsTrans DailyRow (rowLE f asc) :=
  ⟨rowLE_trans f asc⟩

theorem rowLE_of_eq_key (f : DailyRow → ℚ) (asc : Bool) {a b : DailyRow}
    (hd : a.day = b.day) (hf : f a = f b) : rowLE f asc a b := by
  refine Or.inr ⟨hd, ?_⟩
  cases asc with
  | true => exact le_of_eq hf.symm
  | false => exact le_of_eq hf

theorem rowLE_day_le {f : DailyRow → ℚ} {asc : Bool} {a b : DailyRow}
    (h : rowLE f asc a b) : a.day ≤ b.day := by
  rcases h with h | ⟨h, _⟩
  · exact le_of_lt h
  · exact le_of_eq h

/-!  ## Distinct frame values (`uniqAux`)  -/

theorem uniqAux_sublist (seen : List ℤ) (l : List ℤ) : List.Sublist (uniqAux seen l) l := by
  induction l generalizing seen with
  | nil => simp [uniqAux]
  | cons d rest ih =>
      by_cases h : d ∈ seen
      · simp only [uniqAux, if_pos h]
        exact (ih seen).trans (List.sublist_cons_self d rest)
      · simp only [uniqAux, if_neg h]
        exact (ih (d :: seen)).cons₂ d

theorem mem_uniqAux {x : ℤ} (seen : List ℤ) (l : List ℤ) :
    x ∈ uniqAux seen l ↔ x ∈ l ∧ x ∉ seen := by
  induction l generalizing seen with
  | nil => simp [uniqAux]
  | cons d rest ih =>
      by_cases h : d ∈ seen
      · rw [uniqAux, if_pos h, ih seen]
        constructor
        · rintro ⟨hr, hs⟩; exact ⟨List.mem_cons_of_mem d hr, hs⟩
        · rintro ⟨hr, hs⟩
          rcases List.mem_cons.mp hr with rfl | hr
          · exact absurd h hs
          · exact ⟨hr, hs⟩
      · rw [uniqAux, if_neg h, List.mem_cons, ih (d :: seen)]
        constructor
        · rintro (rfl | ⟨hr, hs⟩)
          · exact ⟨List.mem_cons_self x rest, h⟩
          · exact ⟨List.mem_cons_of_mem d hr, fun hx => hs (List.mem_cons_of_mem d hx)⟩
        · rintro ⟨hr, hs⟩
          rcases List.mem_cons.mp hr with rfl | hr
          · exact Or.inl rfl
          · by_cases hxd : x = d
            · exact Or.inl hxd
            · exact Or.inr ⟨hr, fun hx => by
                rcases List.mem_cons.mp hx with h' | h'
                · exact hxd h'
                · exact hs h'⟩

theorem uniqAux_nodup (seen : List ℤ) (l : List ℤ) : (uniqAux seen l).Nodup := by
  induction l generalizing seen with
  | nil => simp [uniqAux]
  | cons d rest ih =>
      by_cases h : d ∈ seen
      · simpa [uniqAux, if_pos h] using ih seen
      · rw [uniqAux, if_neg h]
        refine List.nodup_cons.mpr ⟨fun hd => ?_, ih (d :: seen)⟩
        exact ((mem_uniqAux (d :: seen) rest).mp hd).2 (List.mem_cons_self d seen)

theorem uniqAux_toFinset (seen : List ℤ) (l : List ℤ) :
    (uniqAux seen l).toFinset = l.toFinset \ seen.toFinset := by
  ext x
  simp only [List.mem_toFinset, Finset.mem_sdiff, mem_uniqAux]

theorem frameDays_length (rows : List DailyRow) :
    (frameDays rows).length = ((rows.map (·.day)).toFinset).card := by
  rw [frameDays, ← List.toFinset_card_of_nodup (uniqAux_nodup [] _), uniqAux_toFinset]
  simp

/-!  ## `Series.max` characterization  -/

theorem max?_is_max {l : List ℚ} {m : ℚ} (h : l.max? = some m) :
    m ∈ l ∧ ∀ v ∈ l, v ≤ m := by
  refine ⟨List.max?_mem (fun a b => max_choice a b) h, fun v hv => ?_⟩
  exact (List.max?_le_iff (fun a b c => max_le_iff) h).mp le_rfl v hv

/-!  ## Extraction of a successful animated-chart call  -/

theorem create_anim_ok {df : List DailyRow} {metric : String}
    {sel : Option (List String)} {spec : AnimatedSpec}
    (h : create_animated_airline_chart df metric sel = .ok spec) :
    ∃ f, dailyColumn metric = some f ∧
      spec = animBuild metric f (animFiltered df sel) := by
  unfold create_animated_airline_chart at h
  split at h
  · exact absurd h (by simp)
  · rename_i f hf
    split at h
    · exact ⟨f, hf, (Except.ok.inj h).symm⟩
    · exact absurd h (by simp)

/-!  ## Concrete tables used by evaluation theorems and witnesses  -/

/-- A small daily-airline table: two airlines over two days, written in a
deliberately non-sorted row order. -/
def sampleDaily : List DailyRow :=
  [⟨2, "DL", 5, 7, 80, 3⟩,
   ⟨1, "AA", 10, 5, 90, 1⟩,
   ⟨1, "DL", 20, 6, 85, 2⟩,
   ⟨2, "AA", 15, 4, 95, 1⟩]

/-- A one-row state-metrics table. -/
def sampleStates : List StateRow :=
  [⟨"CA", "California", 12, 2, 1000⟩]

/-- The specification the animated generator returns on `sampleDaily` with
metric `FlightCount` and no airline filter. -/
def sampleSpecFC : AnimatedSpec :=
  (create_animated_airline_chart sampleDaily "FlightCount" none).toOption.getD
    (animBuild "FlightCount" DailyRow.flightCount [])

/-- C1 as stated is false at the unknown metric string `"Bogus"`: both
generators do select their fallback descriptors, but neither returns a plot
specification — `"Bogus"` is not a column, so `px.choropleth` rejects its
`color` argument and `df['Bogus'].max()` raises `KeyError`. -/
theorem c1_counterexample :
    choroplethConfig "Bogus" = avgDepDelayChoroConfig ∧
    animatedConfig "Bogus" = flightCountAnimConfig ∧
    (create_choropleth sampleStates "Bogus").isOk = false ∧
    (create_animated_airline_chart sampleDaily "Bogus" none).isOk = false :=
  ⟨rfl, rfl, rfl, rfl⟩

/-- C1 (amended): for every unknown metric string the generators select
their documented fallback descriptors (`AvgDepDelay`'s for the choropleth,
`FlightCount`'s for the animated chart); but a metric string that is not a
column of the input table makes the generator raise instead of returning a
plot specification. -/
theorem c1_amended_fallback :
    (∀ metric, choroplethMetricConfig metric = none →
        choroplethConfig metric = avgDepDelayChoroConfig) ∧
    (∀ metric, animatedMetricConfig metric = none →
        animatedConfig metric = flightCountAnimConfig) ∧
    (∀ (rows : List StateRow) metric, metric ∉ stateColumns →
        create_choropleth rows metric = .error choroColorColumnError) ∧
    (∀ (df : List DailyRow) (sel : Option (List String)) metric,
        dailyColumn metric = none →
        create_animated_airline_chart df metric sel = .error animKeyError) := by
  refine ⟨fun metric h => ?_, fun metric h => ?_, fun rows metric h => ?_,
    fun df sel metric h => ?_⟩
  · rw [choroplethConfig, h, Option.getD_none]
  · rw [animatedConfig, h, Option.getD_none]
  · rw [create_choropleth, if_neg h]
  · rw [create_animated_airline_chart, h]

/-- Witness for `c1_amended_fallback` at the unknown string `"Bogus"`. -/
theorem c1_amended_fallback_witness :
    choroplethConfig "Bogus" = avgDepDelayChoroConfig ∧
    animatedConfig "Bogus" = flightCountAnimConfig ∧
    create_choropleth sampleStates "Bogus" = .error choroColorColumnError ∧
    create_animated_airline_chart sampleDaily "Bogus" none = .error animKeyError :=
  ⟨c1_amended_fallback.1 "Bogus" rfl,
   c1_amended_fallback.2.1 "Bogus" rfl,
   c1_amended_fallback.2.2.1 sampleStates "Bogus" (by decide),
   c1_amended_fallback.2.2.2 sampleDaily none "Bogus" rfl⟩

/-- C2: an empty row table is fatal for `create_animated_airline_chart`.
With zero rows there are zero animation frames, plotly express adds no
`updatemenus`, and the unguarded `fig.layout.updatemenus[0]` of charts.py
line 259 raises `IndexError` — while the other two generators do return a
structurally valid empty specification (the choropleth on an empty table,
the sunburst under a state filter matching no row). -/
theorem c2_empty_input_behaviour :
    create_animated_airline_chart ([] : List DailyRow) "FlightCount" none
      = .error animIndexError ∧
    (create_choropleth ([] : List StateRow) "AvgDepDelay").isOk = true ∧
    (create_sunburst [⟨"CA", "Los Angeles", "LAX", "AA", 100, 12⟩] (some "NY")).rows
      = [] :=
  ⟨rfl, rfl, rfl⟩

/-- C3 fails for `CancellationRate` on the animated chart: the source
`metric_config` (charts.py lines 162-184) has no `CancellationRate` entry —
although `src/app.py` offers it in this chart's metric dropdown — so the
returned figure carries `FlightCount`'s descriptor (title
"Daily Flight Volume by Airline", x-label "Daily Flights") while animating
cancellation rates. -/
theorem c3_cancellation_rate_fallback :
    animatedMetricConfig "CancellationRate" = none ∧
    (create_animated_airline_chart sampleDaily "CancellationRate" none).map
        (fun s => (s.titleText, s.xLabel)) =
      .ok ("Daily Flight Volume by Airline<br><sub>Number of flights operated each day</sub>",
        "Daily Flights") :=
  ⟨rfl, rfl⟩

/-- C6: `selected_airlines = None` and `selected_airlines = []` yield
identical results (both falsy in `if selected_airlines and
len(selected_airlines) > 0`), and a non-empty list restricts the rows to
the airlines it contains. -/
theorem c6_airline_filter :
    (∀ (df : List DailyRow) (metric : String),
        create_animated_airline_chart df metric none =
          create_animated_airline_chart df metric (some [])) ∧
    (∀ (df : List DailyRow) (sel : List String), sel ≠ [] →
        animFiltered df (some sel) =
          df.filter (fun r => decide (r.airline ∈ sel))) := by
  refine ⟨fun df metric => rfl, fun df sel h => ?_⟩
  rw [animFiltered, if_pos (List.length_pos.mpr h)]

/-- Witness for `c6_airline_filter` on the sample table. -/
theorem c6_airline_filter_witness :
    create_animated_airline_chart sampleDaily "FlightCount" none =
      create_animated_airline_chart sampleDaily "FlightCount" (some []) ∧
    animFiltered sampleDaily (some ["AA"]) =
      sampleDaily.filter (fun r => decide (r.airline ∈ ["AA"])) :=
  ⟨c6_airline_filter.1 sampleDaily "FlightCount",
   c6_airline_filter.2 sampleDaily ["AA"] (by decide)⟩

/-- C7: the sunburst color domain is the constant `[0, 40]`
(`range_color=[0, 40]`, charts.py line 306), for every input table — in
particular for tables whose `AvgDelay` values are negative or exceed 40 —
and every state filter. -/
theorem c7_sunburst_color_domain :
    ∀ (df : List HierRow) (sel : Option String),
      (create_sunburst df sel).rangeColor = (0, 40) :=
  fun _ _ => rfl

/-- C9: no generator mutates the caller's table: each receiver-state
variant hands the caller's table back unchanged (charts.py only performs
non-mutating pandas operations: `copy`, boolean-mask selection,
`sort_values` without `inplace`, `apply`, column reads). -/
theorem c9_tables_unchanged :
    (∀ (rows : List StateRow) metric, (create_choropleth_st rows metric).2 = rows) ∧
    (∀ (df : List DailyRow) metric sel,
        (create_animated_airline_chart_st df metric sel).2 = df) ∧
    (∀ (df : List HierRow) sel, (create_sunburst_st df sel).2 = df) :=
  ⟨fun _ _ => rfl, fun _ _ _ => rfl, fun _ _ => rfl⟩

/-!  ## C10: render semantics of `categoryorder='total ascending'`

The generator sets `yaxis.categoryorder='total ascending'` (charts.py line
236).  What the plotly renderer does with that constant: it orders the
categories by their totals computed from the traces currently in the
figure's data.  For a plotly-express animated figure only the FIRST
animation frame's bars are placed in `fig.data` (the remaining frames live
in `fig.frames`), so the initial category order comes from the first
frame's values alone — totals are never aggregated across animation
frames (on a frame redraw the order may be recomputed from the
then-displayed frame's data, again not from an aggregate).
-/

/-- First-appearance-order distinct airline names of a row list (one
`px.bar` trace per `color='Airline'` group). -/
def uniqStrAux (seen : List String) : List String → List String
  | [] => []
  | a :: rest => if a ∈ seen then uniqStrAux seen rest else a :: uniqStrAux (a :: seen) rest

theorem mem_uniqStrAux {x : String} (seen : List String) (l : List String) :
    x ∈ uniqStrAux seen l ↔ x ∈ l ∧ x ∉ seen := by
  induction l generalizing seen with
  | nil => simp [uniqStrAux]
  | cons d rest ih =>
      by_cases h : d ∈ seen
      · rw [uniqStrAux, if_pos h, ih seen]
        constructor
        · rintro ⟨hr, hs⟩; exact ⟨List.mem_cons_of_mem d hr, hs⟩
        · rintro ⟨hr, hs⟩
          rcases List.mem_cons.mp hr with rfl | hr
          · exact absurd h hs
          · exact ⟨hr, hs⟩
      · rw [uniqStrAux, if_neg h, List.mem_cons, ih (d :: seen)]
        constructor
        · rintro (rfl | ⟨hr, hs⟩)
          · exact ⟨List.mem_cons_self x rest, h⟩
          · exact ⟨List.mem_cons_of_mem d hr, fun hx => hs (List.mem_cons_of_mem d hx)⟩
        · rintro ⟨hr, hs⟩
          rcases List.mem_cons.mp hr with rfl | hr
          · exact Or.inl rfl
          · by_cases hxd : x = d
            · exact Or.inl hxd
            · exact Or.inr ⟨hr, fun hx => by
                rcases List.mem_cons.mp hx with h' | h'
                · exact hxd h'
                · exact hs h'⟩

/-- The distinct airlines of a row list, in first-appearance order. -/
def airlineNames (rows : List DailyRow) : List String :=
  uniqStrAux [] (rows.map (·.airline))

/-- One airline's metric total over a set of displayed rows: the summed bar
lengths of that airline's trace in the displayed data. -/
def airlineTotal (f : DailyRow → ℚ) (rows : List DailyRow) (a : String) : ℚ :=
  ((rows.filter (fun r => decide (r.airline = a))).map f).sum

/-- plotly's `categoryorder='total ascending'` over a set of displayed
traces: the categories (airlines) ordered ascending by each airline's
total in that data. -/
def categoryOrderTotalAscending (f : DailyRow → ℚ) (rows : List DailyRow) :
    List String :=
  (airlineNames rows).insertionSort
    (fun a b => airlineTotal f rows a ≤ airlineTotal f rows b)

/-- The rows a plotly-express animated figure initially displays: the bars
of the first animation frame (`fig.data`; later frames live in
`fig.frames`). -/
def initialData (spec : AnimatedSpec) : List DailyRow :=
  match spec.frames.head? with
  | none => []
  | some d => spec.rows.filter (fun r => decide (r.day = d))

/-- The airline order the plotly renderer derives from the specification's
`categoryorder='total ascending'`: totals over the initially displayed
(first-frame) traces. -/
def renderedCategoryOrder (f : DailyRow → ℚ) (spec : AnimatedSpec) : List String :=
  categoryOrderTotalAscending f (initialData spec)

/-- A table on which first-frame totals and all-frames totals order the
airlines oppositely: day 1 has AA=10 < DL=20, while aggregated over both
days AA=110 > DL=21. -/
def c10Daily : List DailyRow :=
  [⟨1, "AA", 10, 0, 0, 0⟩,
   ⟨1, "DL", 20, 0, 0, 0⟩,
   ⟨2, "AA", 100, 0, 0, 0⟩,
   ⟨2, "DL", 1, 0, 0, 0⟩]

/-- The specification the animated generator returns on `c10Daily` with
metric `FlightCount` and no airline filter. -/
def c10Spec : AnimatedSpec :=
  (create_animated_airline_chart c10Daily "FlightCount" none).toOption.getD
    (animBuild "FlightCount" DailyRow.flightCount [])

theorem insertionSort_pair_of_rel {α : Type} {r : α → α → Prop} [DecidableRel r]
    {a b : α} (h : r a b) : [a, b].insertionSort r = [a, b] := by
  simp [List.insertionSort, List.orderedInsert, if_pos h]

theorem insertionSort_pair_of_not_rel {α : Type} {r : α → α → Prop} [DecidableRel r]
    {a b : α} (h : ¬r a b) : [a, b].insertionSort r = [b, a] := by
  simp [List.insertionSort, List.orderedInsert, if_neg h]

/-- C10 as stated is false: the y-axis `categoryorder` is indeed
`'total ascending'`, but the bar order this produces is computed from the
first frame's bars (AA=10 < DL=20, giving ["AA", "DL"]), not from each
airline's total aggregated across all frames (AA=110 > DL=21, which would
give ["DL", "AA"]). -/
theorem c10_counterexample :
    create_animated_airline_chart c10Daily "FlightCount" none = .ok c10Spec ∧
    c10Spec.yCategoryOrder = "total ascending" ∧
    renderedCategoryOrder DailyRow.flightCount c10Spec = ["AA", "DL"] ∧
    categoryOrderTotalAscending DailyRow.flightCount c10Spec.rows = ["DL", "AA"] ∧
    renderedCategoryOrder DailyRow.flightCount c10Spec ≠
      categoryOrderTotalAscending DailyRow.flightCount c10Spec.rows := by
  have hinit : initialData c10Spec =
      [⟨1, "DL", 20, 0, 0, 0⟩, ⟨1, "AA", 10, 0, 0, 0⟩] := rfl
  have hrows : c10Spec.rows =
      [⟨1, "DL", 20, 0, 0, 0⟩, ⟨1, "AA", 10, 0, 0, 0⟩,
       ⟨2, "AA", 100, 0, 0, 0⟩, ⟨2, "DL", 1, 0, 0, 0⟩] := rfl
  have hInitDL : airlineTotal DailyRow.flightCount (initialData c10Spec) "DL" = 20 := by
    rw [hinit]
    norm_num [airlineTotal, List.filter, show decide ("DL" = "DL") = true from rfl,
      show decide ("AA" = "DL") = false from rfl]
  have hInitAA : airlineTotal DailyRow.flightCount (initialData c10Spec) "AA" = 10 := by
    rw [hinit]
    norm_num [airlineTotal, List.filter, show decide ("AA" = "AA") = true from rfl,
      show decide ("DL" = "AA") = false from rfl]
  have hAggDL : airlineTotal DailyRow.flightCount c10Spec.rows "DL" = 21 := by
    rw [hrows]
    norm_num [airlineTotal, List.filter, show decide ("DL" = "DL") = true from rfl,
      show decide ("AA" = "DL") = false from rfl]
  have hAggAA : airlineTotal DailyRow.flightCount c10Spec.rows "AA" = 110 := by
    rw [hrows]
    norm_num [airlineTotal, List.filter, show decide ("AA" = "AA") = true from rfl,
      show decide ("DL" = "AA") = false from rfl]
  have hRendered : renderedCategoryOrder DailyRow.flightCount c10Spec = ["AA", "DL"] := by
    rw [renderedCategoryOrder, categoryOrderTotalAscending,
      show airlineNames (initialData c10Spec) = ["DL", "AA"] from rfl]
    refine insertionSort_pair_of_not_rel ?_
    rw [hInitDL, hInitAA]
    norm_num
  have hAggregate : categoryOrderTotalAscending DailyRow.flightCount c10Spec.rows
      = ["DL", "AA"] := by
    rw [categoryOrderTotalAscending,
      show airlineNames c10Spec.rows = ["DL", "AA"] from rfl]
    refine insertionSort_pair_of_rel ?_
    rw [hAggDL, hAggAA]
    norm_num
  refine ⟨rfl, rfl, hRendered, hAggregate, ?_⟩
  rw [hRendered, hAggregate]
  decide

/-- The rendered airline order is ascending in the airlines' totals over
the initially displayed (first-frame) data. -/
def ascendingByDisplayedTotals (f : DailyRow → ℚ) (spec : AnimatedSpec) : Prop :=
  (renderedCategoryOrder f spec).Pairwise
    (fun a b => airlineTotal f (initialData spec) a ≤ airlineTotal f (initialData spec) b)

/-- The rendered airline order lists exactly the airlines of the initially
displayed data. -/
def listsDisplayedAirlines (f : DailyRow → ℚ) (spec : AnimatedSpec) : Prop :=
  ∀ a, a ∈ renderedCategoryOrder f spec ↔ a ∈ (initialData spec).map (·.airline)

/-- C10 (amended): every returned specification sets the y-axis
`categoryorder` to `'total ascending'`, and the bar order the renderer
derives from it is each airline's metric total over the traces initially
in the figure's data — the first frame's bars — ordered ascending, not a
total aggregated across all frames. -/
theorem c10_amended_category_order (df : List DailyRow) (metric : String)
    (sel : Option (List String)) (spec : AnimatedSpec) (f : DailyRow → ℚ)
    (_hf : dailyColumn metric = some f)
    (h : create_animated_airline_chart df metric sel = .ok spec) :
    spec.yCategoryOrder = "total ascending" ∧
    ascendingByDisplayedTotals f spec ∧
    listsDisplayedAirlines f spec := by
  haveI htot : IsTotal String
      (fun a b => airlineTotal f (initialData spec) a ≤ airlineTotal f (initialData spec) b) :=
    ⟨fun a b => le_total _ _⟩
  haveI htr : IsTrans String
      (fun a b => airlineTotal f (initialData spec) a ≤ airlineTotal f (initialData spec) b) :=
    ⟨fun a b c h1 h2 => le_trans h1 h2⟩
  refine ⟨?_, List.sorted_insertionSort _ _, fun a => ?_⟩
  · obtain ⟨g, -, rfl⟩ := create_anim_ok h
    rfl
  · rw [renderedCategoryOrder, categoryOrderTotalAscending, List.mem_insertionSort,
      airlineNames, mem_uniqStrAux]
    simp

/-- Witness for `c10_amended_category_order` on the sample table. -/
theorem c10_amended_category_order_witness :
    sampleSpecFC.yCategoryOrder = "total ascending" ∧
    ascendingByDisplayedTotals DailyRow.flightCount sampleSpecFC ∧
    listsDisplayedAirlines DailyRow.flightCount sampleSpecFC :=
  c10_amended_category_order sampleDaily "FlightCount" none sampleSpecFC
    DailyRow.flightCount rfl rfl

/-!  ## C4, C5, C8: x-range, sort order, frames  -/

/-- The x-axis upper-bound rule of the specification: `1.1 × max` over the
metric values of the filtered rows, and exactly `100` when the filtered set
is empty or the maximum is not positive. -/
def maxRule (vals : List ℚ) (x : ℚ) : Prop :=
  (vals = [] → x = 100) ∧
  ∀ m, m ∈ vals → (∀ v ∈ vals, v ≤ m) →
    ((0 < m → x = m * (11 / 10)) ∧ (m ≤ 0 → x = 100))

/-- C4: the x-axis upper bound of a returned specification is
`1.1 × max(metric over the airline-filtered rows)`, and exactly `100` when
that set is empty or its maximum is `≤ 0` (charts.py lines 193-195, 232). -/
theorem c4_x_range (df : List DailyRow) (metric : String)
    (sel : Option (List String)) (spec : AnimatedSpec) (f : DailyRow → ℚ)
    (hf : dailyColumn metric = some f)
    (h : create_animated_airline_chart df metric sel = .ok spec) :
    maxRule ((animFiltered df sel).map f) spec.xRange.2 := by
  obtain ⟨g, hg, rfl⟩ := create_anim_ok h
  obtain rfl : f = g := Option.some.inj (hf.symm.trans hg)
  unfold animBuild
  dsimp only
  constructor
  · intro hv
    rw [hv]
    rfl
  · intro m hm hbound
    cases hmax : ((animFiltered df sel).map f).max? with
    | none =>
        rw [List.max?_eq_none_iff] at hmax
        rw [hmax] at hm
        cases hm
    | some m0 =>
        obtain ⟨hm0mem, hm0max⟩ := max?_is_max hmax
        obtain rfl : m = m0 := le_antisymm (hm0max m hm) (hbound m0 hm0mem)
        constructor
        · intro hpos
          show (if 0 < m then m * (11 / 10) else 100) = m * (11 / 10)
          rw [if_pos hpos]
        · intro hneg
          show (if 0 < m then m * (11 / 10) else 100) = 100
          rw [if_neg (not_lt.mpr hneg)]

/-- Witness for `c4_x_range` on the sample table. -/
theorem c4_x_range_witness :
    maxRule ((animFiltered sampleDaily none).map DailyRow.flightCount)
      sampleSpecFC.xRange.2 :=
  c4_x_range sampleDaily "FlightCount" none sampleSpecFC DailyRow.flightCount rfl rfl

/-- The ordering the specification requires of the animated chart's data
binding: by `Day` ascending, and within a day by the metric — descending
for the higher-is-better metrics (`ascending_metric` true), ascending
otherwise. -/
def sortedByDayAndMetric (f : DailyRow → ℚ) (asc : Bool) (l : List DailyRow) : Prop :=
  l.Pairwise (rowLE f asc)

/-- Stability: for every (Day, metric-value) sort key, the rows carrying
that key appear in the output in exactly their original relative order. -/
def stableOn (f : DailyRow → ℚ) (orig out : List DailyRow) : Prop :=
  ∀ k : ℤ × ℚ, out.filter (fun r => decide ((r.day, f r) = k)) =
    orig.filter (fun r => decide ((r.day, f r) = k))

/-- C5: the data binding of a returned specification is a permutation of
the filtered input, ordered by `Day` ascending then by the metric
(descending for `FlightCount`/`OnTimeRate`, ascending otherwise), and the
sort is stable (charts.py lines 197-199; multi-column `sort_values` is
pandas' stable lexsort). -/
theorem c5_sort_order (df : List DailyRow) (metric : String)
    (sel : Option (List String)) (spec : AnimatedSpec) (f : DailyRow → ℚ)
    (hf : dailyColumn metric = some f)
    (h : create_animated_airline_chart df metric sel = .ok spec) :
    List.Perm spec.rows (animFiltered df sel) ∧
    sortedByDayAndMetric f (ascendingMetric metric) spec.rows ∧
    stableOn f (animFiltered df sel) spec.rows := by
  obtain ⟨g, hg, rfl⟩ := create_anim_ok h
  obtain rfl : f = g := Option.some.inj (hf.symm.trans hg)
  refine ⟨List.perm_insertionSort _ _, List.sorted_insertionSort _ _, fun k => ?_⟩
  set asc := ascendingMetric metric
  set filtered := animFiltered df sel
  set p : DailyRow → Bool := fun r => decide ((r.day, f r) = k) with hp
  have hpkey : ∀ r, p r = true → r.day = k.1 ∧ f r = k.2 := by
    intro r hr
    have hk : (r.day, f r) = k := of_decide_eq_true hr
    exact ⟨congrArg Prod.fst hk, congrArg Prod.snd hk⟩
  have hties : (filtered.filter p).Pairwise (rowLE f asc) := by
    refine List.pairwise_of_forall_mem_list fun a ha b hb => ?_
    obtain ⟨da, fa⟩ := hpkey a (List.mem_filter.mp ha).2
    obtain ⟨db, fb⟩ := hpkey b (List.mem_filter.mp hb).2
    exact rowLE_of_eq_key f asc (da.trans db.symm) (fa.trans fb.symm)
  have hsub : List.Sublist (filtered.filter p)
      (filtered.insertionSort (rowLE f asc)) :=
    List.sublist_insertionSort hties (List.filter_sublist filtered)
  have hsub2 : List.Sublist ((filtered.filter p).filter p)
      ((filtered.insertionSort (rowLE f asc)).filter p) := hsub.filter p
  rw [List.filter_eq_self.mpr (fun a ha => (List.mem_filter.mp ha).2)] at hsub2
  have hperm : List.Perm ((filtered.insertionSort (rowLE f asc)).filter p)
      (filtered.filter p) := (List.perm_insertionSort (rowLE f asc) filtered).filter p
  exact (hsub2.eq_of_length hperm.length_eq.symm).symm

/-- Witness for `c5_sort_order` on the sample table. -/
theorem c5_sort_order_witness :
    List.Perm sampleSpecFC.rows (animFiltered sampleDaily none) ∧
    sortedByDayAndMetric DailyRow.flightCount (ascendingMetric "FlightCount")
      sampleSpecFC.rows ∧
    stableOn DailyRow.flightCount (animFiltered sampleDaily none) sampleSpecFC.rows :=
  c5_sort_order sampleDaily "FlightCount" none sampleSpecFC DailyRow.flightCount rfl rfl

/-- Number of distinct `Day` values of a daily-airline table. -/
def distinctDayCount (rows : List DailyRow) : ℕ :=
  ((rows.map (·.day)).toFinset).card

/-- The frame sequence is non-decreasing in `Day`. -/
def daysNonDecreasing (l : List ℤ) : Prop :=
  l.Pairwise (· ≤ ·)

/-- C8: a returned specification has one animation frame per distinct `Day`
value of the filtered input, and the frames appear in non-decreasing `Day`
order (one `px.bar` frame per `animation_frame` group, in first-appearance
order over the day-sorted data). -/
theorem c8_frames (df : List DailyRow) (metric : String)
    (sel : Option (List String)) (spec : AnimatedSpec) (f : DailyRow → ℚ)
    (hf : dailyColumn metric = some f)
    (h : create_animated_airline_chart df metric sel = .ok spec) :
    spec.frames.length = distinctDayCount (animFiltered df sel) ∧
    daysNonDecreasing spec.frames := by
  obtain ⟨g, hg, rfl⟩ := create_anim_ok h
  obtain rfl : f = g := Option.some.inj (hf.symm.trans hg)
  set asc := ascendingMetric metric
  set filtered := animFiltered df sel
  have hsortperm : List.Perm (sortValues f asc filtered) filtered :=
    List.perm_insertionSort (rowLE f asc) filtered
  constructor
  · show (frameDays (sortValues f asc filtered)).length = distinctDayCount filtered
    rw [frameDays_length, distinctDayCount]
    refine congrArg Finset.card ?_
    ext x
    simp only [List.mem_toFinset]
    exact (hsortperm.map (·.day)).mem_iff
  · show daysNonDecreasing (frameDays (sortValues f asc filtered))
    have hdays : ((sortValues f asc filtered).map (·.day)).Pairwise
        (fun a b => a ≤ b) :=
      (List.sorted_insertionSort (rowLE f asc) filtered).map _
        (fun a b hab => rowLE_day_le hab)
    exact hdays.sublist (uniqAux_sublist [] _)

/-- Witness for `c8_frames` on the sample table. -/
theorem c8_frames_witness :
    sampleSpecFC.frames.length = distinctDayCount (animFiltered sampleDaily none) ∧
    daysNonDecreasing sampleSpecFC.frames :=
  c8_frames sampleDaily "FlightCount" none sampleSpecFC DailyRow.flightCount rfl rfl

end AirportCharts
